import Mathlib

/-!
# Verification of the ruuvi2iotcore bridge core

A shallow embedding of the parts of `ruuvi2iotcore` that the specification's
testable properties talk about:

* `ruuvitag-dataformat/src/v5.rs` — the RuuviTag data-format-5 payload view
  (`RuuviTagDataFormat5`, `structview` big-endian accessors, the `Display`
  rendering used by the scanner's stuck-stack comparison);
* `src/scanner.rs` — one iteration of the `start_scanner` loop: C&C handling,
  manufacturer-data frame recognition, v5 dispatch, the stuck-data inventory;
* `src/iotcore.rs` — one iteration of the `start_client` loop: the 58-second
  watchdog, inbound C&C handling, attach/detach bookkeeping, batching, the
  pause keep-alive, and the `publish_message` JWT/reconnect gate;
* `src/jwt.rs` — token expiry arithmetic (`is_valid`, `renew`).

Modelling conventions.  Machine integers are `Nat`/`Int` (the Rust code never
exercises wrap-around on the paths modelled here).  `f32` arithmetic is
modelled by exact rational arithmetic: every float computed by the code is a
raw integer divided by a small constant, far inside the range where `f32`
is exact enough that the Rust test-suite compares with `==`; the 2-decimal
`Display` rounding is modelled by exact rational rounding.  Wall-clock time
(`Instant`, `chrono::Utc`) is modelled by integer seconds.  External effects
(the MQTT broker accepting a publish) are an oracle `Env.pubOk`; BlueZ/
hardware operations and channel sends are modelled as succeeding, which is
the regime every claim quantifies over.  Fallible Rust paths return explicit
result constructors (`.fatal` for a propagated `Err`, `.panicked` for a Rust
panic).  Recursion between `publish_message`, `connect` and
`reattach_discovered_devices` (present in the Rust call graph) is bounded by
explicit fuel; one unit of fuel per nested reconnect.
-/

/-! ## RuuviTag data format 5 (ruuvitag-dataformat/src/v5.rs) -/

/-- Raw field view of `RuuviTagDataFormat5`: each multi-byte field stores the
big-endian unsigned value of its bytes (`structview::i16_be` / `u16_be` store
raw bytes; signedness only appears in `to_int`, modelled in the accessors). -/
structure RuuviTagDataFormat5 where
  temperature : Nat
  humidity : Nat
  atmospheric_pressure : Nat
  acceleration_x : Nat
  acceleration_y : Nat
  acceleration_z : Nat
  powerinfo : Nat
  movement_counter : Nat
  measurement_sequence_number : Nat
deriving DecidableEq, Repr

/-- Big-endian 16-bit read at offset `i` of a byte list. -/
def be16 (l : List Nat) (i : Nat) : Nat :=
  (l.getD i 0) * 256 + l.getD (i + 1) 0

/-- Two's-complement reinterpretation of a 16-bit unsigned value
(`structview::i16_be::to_int`). -/
def toI16 (n : Nat) : Int :=
  if n < 32768 then (n : Int) else (n : Int) - 65536

/-- `structview::View::view` for `RuuviTagDataFormat5`: the struct is 17
bytes of alignment 1, so viewing succeeds exactly when at least 17 bytes are
given; trailing bytes are ignored. -/
def RuuviTagDataFormat5.view (data : List Nat) : Option RuuviTagDataFormat5 :=
  if 17 ≤ data.length then
    some
      { temperature := be16 data 0
        humidity := be16 data 2
        atmospheric_pressure := be16 data 4
        acceleration_x := be16 data 6
        acceleration_y := be16 data 8
        acceleration_z := be16 data 10
        powerinfo := be16 data 12
        movement_counter := data.getD 14 0
        measurement_sequence_number := be16 data 15 }
  else none

/-- `get_temperature`: signed raw / 200 (°C). -/
def RuuviTagDataFormat5.get_temperature (p : RuuviTagDataFormat5) : ℚ :=
  (toI16 p.temperature : ℚ) / 200

/-- `get_humidity`: raw / 400 (%). -/
def RuuviTagDataFormat5.get_humidity (p : RuuviTagDataFormat5) : ℚ :=
  (p.humidity : ℚ) / 400

/-- `get_pressure`: (raw + 50000) / 100 (hPa). -/
def RuuviTagDataFormat5.get_pressure (p : RuuviTagDataFormat5) : ℚ :=
  ((p.atmospheric_pressure : ℚ) + 50000) / 100

/-- `get_accelaration().on_x_axis` (mG, an exact integer in the code's f32). -/
def RuuviTagDataFormat5.accel_x (p : RuuviTagDataFormat5) : Int :=
  toI16 p.acceleration_x

/-- `get_accelaration().on_y_axis` (mG). -/
def RuuviTagDataFormat5.accel_y (p : RuuviTagDataFormat5) : Int :=
  toI16 p.acceleration_y

/-- `get_accelaration().on_z_axis` (mG). -/
def RuuviTagDataFormat5.accel_z (p : RuuviTagDataFormat5) : Int :=
  toI16 p.acceleration_z

/-- `get_battery`: (powerinfo >> 5) + 1600 (mV). -/
def RuuviTagDataFormat5.get_battery (p : RuuviTagDataFormat5) : Nat :=
  p.powerinfo / 32 + 1600

/-- `get_tx_power`: (powerinfo & 0b11111) * 2 − 40 (dBm). -/
def RuuviTagDataFormat5.get_tx_power (p : RuuviTagDataFormat5) : Int :=
  (p.powerinfo % 32 : Int) * 2 - 40

/-- `get_movement_counter`. -/
def RuuviTagDataFormat5.get_movement_counter (p : RuuviTagDataFormat5) : Nat :=
  p.movement_counter

/-- `get_measurement_sequence_number`. -/
def RuuviTagDataFormat5.get_measurement_sequence_number
    (p : RuuviTagDataFormat5) : Nat :=
  p.measurement_sequence_number

/-- Nearest integer to `√n` (ties cannot occur for integer `n`); models
`RuuviTagAccelaration::sqrt`, i.e. `(x²+y²+z²).sqrt().round()`. -/
def roundSqrt (n : Nat) : Nat :=
  let s := Nat.sqrt n
  if s * s + s < n then s + 1 else s

/-- The tuple of numbers printed by `impl fmt::Display for
RuuviTagDataFormat5` (and the nested accelaration `Display`).  The format
string is fixed, so two payloads have equal `to_string()` exactly when these
printed components coincide.  `{:.2}` float formatting is modelled by exact
rational rounding to centesimals. -/
structure RuuviDisplay where
  temperature : Int
  humidity : Int
  pressure : Int
  accel_mag : Nat
  accel_x : Int
  accel_y : Int
  accel_z : Int
  battery : Nat
  tx_power : Int
  movement_counter : Nat
  measurement_sequence : Nat
deriving DecidableEq, Repr

/-- The `Display` rendering of a v5 payload, as its tuple of printed
components (see `RuuviDisplay`). -/
def RuuviTagDataFormat5.display (p : RuuviTagDataFormat5) : RuuviDisplay :=
  { temperature := round (p.get_temperature * 100)
    humidity := round (p.get_humidity * 100)
    pressure := round (p.get_pressure * 100)
    accel_mag := roundSqrt
      (p.accel_x * p.accel_x + p.accel_y * p.accel_y
        + p.accel_z * p.accel_z).toNat
    accel_x := p.accel_x
    accel_y := p.accel_y
    accel_z := p.accel_z
    battery := p.get_battery
    tx_power := p.get_tx_power
    movement_counter := p.get_movement_counter
    measurement_sequence := p.get_measurement_sequence_number }

/-! ### §8 test vectors (payload bytes after the format tag `0x05`) -/

/-- Valid vector `12FC5394C37C0004FFFC040CAC364200CD`. -/
def v5ValidVector : List Nat :=
  [0x12, 0xFC, 0x53, 0x94, 0xC3, 0x7C, 0x00, 0x04, 0xFF, 0xFC, 0x04, 0x0C,
   0xAC, 0x36, 0x42, 0x00, 0xCD]

/-- Min vector `8001000000008001800180010000000000` (first 17 bytes). -/
def v5MinVector : List Nat :=
  [0x80, 0x01, 0x00, 0x00, 0x00, 0x00, 0x80, 0x01, 0x80, 0x01, 0x80, 0x01,
   0x00, 0x00, 0x00, 0x00, 0x00]

/-- Max vector `7FFFFFFEFFFE7FFF7FFF7FFFFFDEFEFFFE` (first 17 bytes). -/
def v5MaxVector : List Nat :=
  [0x7F, 0xFF, 0xFF, 0xFE, 0xFF, 0xFE, 0x7F, 0xFF, 0x7F, 0xFF, 0x7F, 0xFF,
   0xFF, 0xDE, 0xFE, 0xFF, 0xFE]

/-- C1: viewing the payload bytes after the format tag as a
`RuuviTagDataFormat5` and reading it through the accessors yields exactly the
values listed for the three §8 vectors (valid / min / max). -/
theorem c1_v5_vectors :
    ((RuuviTagDataFormat5.view v5ValidVector).map
        (fun p => (p.get_temperature, p.get_humidity, p.get_pressure,
          p.accel_x, p.accel_y, p.accel_z, p.get_tx_power, p.get_battery,
          p.get_movement_counter, p.get_measurement_sequence_number))
      = some (243/10, 5349/100, 100044/100, 4, -4, 1036, 4, 2977, 66, 205))
    ∧ ((RuuviTagDataFormat5.view v5MinVector).map
        (fun p => (p.get_temperature, p.get_humidity, p.get_pressure,
          p.accel_x, p.accel_y, p.accel_z, p.get_tx_power, p.get_battery,
          p.get_movement_counter, p.get_measurement_sequence_number))
      = some (-163835/1000, 0, 500, -32767, -32767, -32767, -40, 1600, 0, 0))
    ∧ ((RuuviTagDataFormat5.view v5MaxVector).map
        (fun p => (p.get_temperature, p.get_humidity, p.get_pressure,
          p.accel_x, p.accel_y, p.accel_z, p.get_tx_power, p.get_battery,
          p.get_movement_counter, p.get_measurement_sequence_number))
      = some (163835/1000, 163835/1000, 115534/100, 32767, 32767, 32767,
          20, 3646, 254, 65534)) := by
  refine ⟨?_, ?_, ?_⟩ <;>
    norm_num [RuuviTagDataFormat5.view, v5ValidVector, v5MinVector, v5MaxVector,
      RuuviTagDataFormat5.get_temperature, RuuviTagDataFormat5.get_humidity,
      RuuviTagDataFormat5.get_pressure, RuuviTagDataFormat5.accel_x,
      RuuviTagDataFormat5.accel_y, RuuviTagDataFormat5.accel_z,
      RuuviTagDataFormat5.get_tx_power, RuuviTagDataFormat5.get_battery,
      RuuviTagDataFormat5.get_movement_counter,
      RuuviTagDataFormat5.get_measurement_sequence_number, be16, toI16]

/-! ## C&C message types (src/iotcore.rs) -/

/-- `CNCCommand`. -/
inductive CNCCommand
  | COLLECT
  | PAUSE
  | SHUTDOWN
  | RESET
deriving DecidableEq, Repr

/-- `CNCCommandMessage`. -/
structure CNCCommandMessage where
  command : CNCCommand
deriving DecidableEq, Repr

/-- `BluetoothConfig`. -/
structure BluetoothConfig where
  adapter_index : Nat
deriving DecidableEq, Repr

/-- `CollectConfig`. -/
structure CollectConfig where
  collecting : Bool
  event_subfolder : Option String
  stuck_data_threshold : Option Int
  collection_size : Option Nat
  bluetooth : Option BluetoothConfig
deriving DecidableEq, Repr

/-- `CollectConfig::collection_size()`: `None` defaults to 0. -/
def CollectConfig.collectionSize (c : CollectConfig) : Nat :=
  c.collection_size.getD 0

/-- `IOTCoreCNCMessageKind`. -/
inductive IOTCoreCNCMessageKind
  | COMMAND (c : Option CNCCommandMessage)
  | CONFIG (c : Option CollectConfig)
deriving DecidableEq, Repr

/-- `RuuviBluetoothBeacon` (src/scanner.rs): decoded payload, capture
timestamp (UTC, modelled in seconds), source address string. -/
structure RuuviBluetoothBeacon where
  data : RuuviTagDataFormat5
  timestamp : Int
  address : String
deriving DecidableEq, Repr

/-! ### Association-list model of the `HashMap`s (unique keys) -/

/-- Lookup by key. -/
def alLookup {β : Type} (k : String) : List (String × β) → Option β
  | [] => none
  | (k', v) :: t => if k' = k then some v else alLookup k t

/-- `HashMap::insert`: replace in place, or append a fresh entry. -/
def alInsert {β : Type} (k : String) (v : β) :
    List (String × β) → List (String × β)
  | [] => [(k, v)]
  | (k', v') :: t =>
      if k' = k then (k, v) :: t else (k', v') :: alInsert k v t

/-- `HashMap::remove`. -/
def alErase {β : Type} (k : String) (l : List (String × β)) :
    List (String × β) :=
  l.filter (fun p => p.1 != k)

/-! ## Scanner loop (src/scanner.rs, `start_scanner`) -/

/-- The scanner's mutable state inside one `start_scanner` run, plus logs of
its observable effects: `sent` records beacons pushed onto the beacon
channel, `unsupportedLog` records "data format not implemented" warnings
(one entry per dropped frame, carrying the offending format tag).
`btReserved` models `bt_central`/`bt_receiver` being `Some` (a reserved
adapter). -/
structure ScannerState where
  btReserved : Bool
  adapter_index : Option Nat
  stuck_data_threshold : Option Int
  inventory : List (String × RuuviBluetoothBeacon)
  sent : List RuuviBluetoothBeacon
  unsupportedLog : List Nat
deriving DecidableEq, Repr

/-- `BluetoothScanner::stuck_data_threshold()`: configured value, with
`None` and values ≤ 0 replaced by the 180-second default. -/
def ScannerState.stuckThreshold (st : ScannerState) : Int :=
  match st.stuck_data_threshold with
  | some t => if t ≤ 0 then 180 else t
  | none => 180

/-- Result of one iteration of a worker loop: fall through to the next
iteration, return `Ok(false)` (RESTART), exit the loop and return `Ok(true)`
(clean shutdown), propagate an `Err` out of the function, or hit a Rust
panic. -/
inductive ScanIterResult
  | next (st : ScannerState)
  | restart (st : ScannerState)
  | clean (st : ScannerState)
  | fatal (st : ScannerState)
  | panicked (st : ScannerState)
deriving DecidableEq, Repr

/-- The advertising-event half of the loop body (scanner.rs lines 275-373):
look up the peripheral of the event's address (`bd_addr.unwrap()` panics on
events that carry no address), read its manufacturer data, recognise the
Ruuvi frame by `data[0] == 153 && data[1] == 4` (unguarded indexing, but
`&&` short-circuits), dispatch on the format tag `data[2]`, view the payload
after the tag as format 5, run the stuck-data check, and send the beacon.
An event is only polled while an adapter is reserved. -/
def scanEvent (st : ScannerState) (now : Int)
    (eventIn : Option (Option String × Option (List Nat))) : ScanIterResult :=
  if st.btReserved then
    match eventIn with
    | none => .next st
    | some (addrOpt, mdOpt) =>
      match addrOpt with
      | none => .panicked st
      | some addr =>
        match mdOpt with
        | none => .next st
        | some data =>
          match data[0]? with
          | none => .panicked st
          | some b0 =>
            if b0 = 153 then
              match data[1]? with
              | none => .panicked st
              | some b1 =>
                if b1 = 4 then
                  match data[2]? with
                  | none => .panicked st
                  | some b2 =>
                    if b2 = 5 then
                      match RuuviTagDataFormat5.view (data.drop 3) with
                      | none => .fatal st
                      | some payload =>
                        let beacon : RuuviBluetoothBeacon :=
                          { data := payload, timestamp := now, address := addr }
                        match alLookup addr st.inventory with
                        | some old =>
                          if st.stuckThreshold ≤ now - old.timestamp then
                            if beacon.data.display = old.data.display then
                              .restart st
                            else
                              .next { st with
                                inventory := alInsert addr beacon st.inventory
                                sent := st.sent ++ [beacon] }
                          else .next { st with sent := st.sent ++ [beacon] }
                        | none =>
                          .next { st with
                            inventory := alInsert addr beacon st.inventory
                            sent := st.sent ++ [beacon] }
                    else
                      .next { st with
                        unsupportedLog := st.unsupportedLog ++ [b2] }
                else .next st
            else .next st
  else .next st

/-- One iteration of the `start_scanner` loop (scanner.rs lines 219-377):
poll the C&C channel (SHUTDOWN releases the adapter and exits cleanly,
RESET releases and restarts, a config associates / re-associates the
adapter), then poll the adapter event stream via `scanEvent`.  Hardware
operations (`reserve_adapter`, `start_scan`, `stop_scan`) are modelled as
succeeding whenever an adapter is reserved; `stop_scan`/`start_scan`
without a reserved adapter is a propagated error. -/
def scannerIter (st : ScannerState) (now : Int)
    (cncIn : Option IOTCoreCNCMessageKind)
    (eventIn : Option (Option String × Option (List Nat))) : ScanIterResult :=
  match cncIn with
  | some (.COMMAND (some cmd)) =>
    match cmd.command with
    | .SHUTDOWN => .clean { st with btReserved := false }
    | .RESET => .restart { st with btReserved := false }
    | _ => scanEvent st now eventIn
  | some (.CONFIG (some cc)) =>
    let newIdx := (cc.bluetooth.map BluetoothConfig.adapter_index).getD 0
    let st := { st with stuck_data_threshold := cc.stuck_data_threshold }
    match st.adapter_index with
    | none =>
      scanEvent { st with adapter_index := some newIdx, btReserved := true }
        now eventIn
    | some idx =>
      if idx ≠ newIdx then
        if st.btReserved then .restart { st with adapter_index := some newIdx }
        else .fatal st
      else
        if st.btReserved then scanEvent st now eventIn else .fatal st
  | _ => scanEvent st now eventIn

/-! ### Concrete scanner scenarios -/

/-- All-zero v5 payload (the view of 17 zero bytes). -/
def zeroPayload : RuuviTagDataFormat5 := ⟨0, 0, 0, 0, 0, 0, 0, 0, 0⟩

/-- A zero-filled 24-byte v5 payload body ("at least 24 bytes after the
format tag"). -/
def zeroFrameRest : List Nat := List.replicate 24 0

/-- A beacon for address `AA` holding the all-zero payload at time 0. -/
def beaconA0 : RuuviBluetoothBeacon := ⟨zeroPayload, 0, "AA"⟩

/-- A scanning state whose staleness inventory already holds `beaconA0`
for address `AA` (default threshold). -/
def stStuck : ScannerState :=
  ⟨true, some 0, none, [("AA", beaconA0)], [], []⟩

/-- A fresh scanning state (reserved adapter, empty inventory). -/
def stFresh : ScannerState := ⟨true, some 0, none, [], [], []⟩

/-- C10 counterexample: one-byte manufacturer data whose single byte is not
`0x99` is ignored without a panic (`&&` short-circuits), contradicting the
claim that every 1-or-2-byte manufacturer data panics. -/
theorem c10_counterexample :
    scannerIter stFresh 0 none (some (some "AA", some [0])) = .next stFresh := by
  rfl

/-- C10 (amended): with an adapter reserved, the frame-processing step
panics via out-of-bounds indexing exactly when evaluation reaches a missing
index: empty data always panics at index 0; one-byte data panics (at index
1) iff its byte is `0x99`; two-byte data panics (at index 2) iff it is
`0x99 0x04`; data of length ≥ 3 never panics on these reads. -/
theorem c10_panic_iff (st : ScannerState) (now : Int) (addr : String)
    (data : List Nat) (hbt : st.btReserved = true) :
    scannerIter st now none (some (some addr, some data)) = .panicked st
      ↔ data.length = 0
        ∨ (data.length = 1 ∧ data.getD 0 0 = 153)
        ∨ (data.length = 2 ∧ data.getD 0 0 = 153 ∧ data.getD 1 0 = 4) := by
  match data with
  | [] => simp [scannerIter, scanEvent, hbt]
  | [a] =>
    by_cases ha : a = 153 <;> simp [scannerIter, scanEvent, hbt, ha]
  | [a, b] =>
    by_cases ha : a = 153 <;> by_cases hb : b = 4 <;>
      simp [scannerIter, scanEvent, hbt, ha, hb]
  | a :: b :: c :: rest =>
    simp only [scannerIter, scanEvent, hbt, if_true, List.getElem?_cons_zero,
      List.getElem?_cons_succ, List.length_cons]
    constructor
    · intro h
      by_cases ha : a = 153
      · by_cases hb : b = 4
        · by_cases hc : c = 5
          · simp only [ha, hb, hc, if_true] at h
            cases hv : RuuviTagDataFormat5.view ((153 :: 4 :: 5 :: rest).drop 3) <;>
              simp only [hv] at h
            · exact absurd h (by simp)
            · rcases hl : alLookup addr st.inventory with _ | old <;>
                simp only [hl] at h
              · exact absurd h (by simp)
              · split_ifs at h
          · simp [ha, hb, hc] at h
        · simp [ha, hb] at h
      · simp [ha] at h
    · omega

/-- C10 witness: `0x99` alone reaches the out-of-bounds read of index 1. -/
theorem c10_witness :
    scannerIter stFresh 0 none (some (some "AA", some [153]))
      = .panicked stFresh :=
  (c10_panic_iff stFresh 0 "AA" [153] rfl).mpr (by simp)

/-- C2 counterexample: a `0x99 0x04 0x05` frame with 24 payload bytes whose
decoded payload prints identically to the stored beacon past the staleness
threshold makes the scanner return RESTART without sending any beacon —
contradicting "decoding succeeds and exactly one beacon is sent". -/
theorem c2_counterexample :
    24 ≤ zeroFrameRest.length
    ∧ scannerIter stStuck 200 none
        (some (some "AA", some (153 :: 4 :: 5 :: zeroFrameRest)))
      = .restart stStuck
    ∧ stStuck.sent = [] := by
  have hv : RuuviTagDataFormat5.view zeroFrameRest = some zeroPayload := by
    decide
  refine ⟨by decide, ?_, rfl⟩
  norm_num [scannerIter, scanEvent, stStuck, hv, beaconA0, alLookup,
    ScannerState.stuckThreshold]

/-- C2 (amended): for an advertising event carrying manufacturer data while
an adapter is reserved: (1) a buffer whose first two bytes are not
`0x99 0x04` is ignored — the v5 decoder is not reached and no beacon is
emitted; (2) with format tag 5 and at least 24 payload bytes after the tag,
decoding succeeds; the decoded beacon is sent on the beacon channel —
(3) first observation, (5) threshold elapsed with a differing payload
rendering, (6) threshold not yet elapsed — EXCEPT (4) when the stuck-stack
check fires (stored beacon for the address, threshold elapsed, identical
payload rendering), in which case the scanner returns RESTART and sends
nothing; (7) a format tag other than 5 logs exactly one "unsupported
format" signal and drops the frame without a beacon. -/
theorem c2_frame_recognition (st : ScannerState) (now : Int) (addr : String)
    (hbt : st.btReserved = true) :
    (∀ a b rest, ¬(a = 153 ∧ b = 4) →
        scannerIter st now none (some (some addr, some (a :: b :: rest)))
          = .next st)
    ∧ (∀ rest, 24 ≤ rest.length → (RuuviTagDataFormat5.view rest).isSome)
    ∧ (∀ rest payload, RuuviTagDataFormat5.view rest = some payload →
        alLookup addr st.inventory = none →
        scannerIter st now none
            (some (some addr, some (153 :: 4 :: 5 :: rest)))
          = .next { st with
              inventory := alInsert addr ⟨payload, now, addr⟩ st.inventory
              sent := st.sent ++ [⟨payload, now, addr⟩] })
    ∧ (∀ rest payload old, RuuviTagDataFormat5.view rest = some payload →
        alLookup addr st.inventory = some old →
        st.stuckThreshold ≤ now - old.timestamp →
        payload.display = old.data.display →
        scannerIter st now none
            (some (some addr, some (153 :: 4 :: 5 :: rest)))
          = .restart st)
    ∧ (∀ rest payload old, RuuviTagDataFormat5.view rest = some payload →
        alLookup addr st.inventory = some old →
        st.stuckThreshold ≤ now - old.timestamp →
        payload.display ≠ old.data.display →
        scannerIter st now none
            (some (some addr, some (153 :: 4 :: 5 :: rest)))
          = .next { st with
              inventory := alInsert addr ⟨payload, now, addr⟩ st.inventory
              sent := st.sent ++ [⟨payload, now, addr⟩] })
    ∧ (∀ rest payload old, RuuviTagDataFormat5.view rest = some payload →
        alLookup addr st.inventory = some old →
        now - old.timestamp < st.stuckThreshold →
        scannerIter st now none
            (some (some addr, some (153 :: 4 :: 5 :: rest)))
          = .next { st with sent := st.sent ++ [⟨payload, now, addr⟩] })
    ∧ (∀ t rest, t ≠ 5 →
        scannerIter st now none
            (some (some addr, some (153 :: 4 :: t :: rest)))
          = .next { st with
              unsupportedLog := st.unsupportedLog ++ [t] }) := by
  refine ⟨?_, ?_, ?_, ?_, ?_, ?_, ?_⟩
  · intro a b rest hab
    by_cases ha : a = 153
    · have hb : ¬b = 4 := fun hb => hab ⟨ha, hb⟩
      simp [scannerIter, scanEvent, hbt, ha, hb]
    · simp [scannerIter, scanEvent, hbt, ha]
  · intro rest hlen
    simp [RuuviTagDataFormat5.view]
    omega
  · intro rest payload hv hl
    simp [scannerIter, scanEvent, hbt, hv, hl]
  · intro rest payload old hv hl hth hd
    simp [scannerIter, scanEvent, hbt, hv, hl, hth, hd]
  · intro rest payload old hv hl hth hd
    simp [scannerIter, scanEvent, hbt, hv, hl, hth, hd]
  · intro rest payload old hv hl hlt
    have hth : ¬(st.stuckThreshold ≤ now - old.timestamp) := not_le.mpr hlt
    simp [scannerIter, scanEvent, hbt, hv, hl, hth]
  · intro t rest ht
    simp [scannerIter, scanEvent, hbt, ht]

/-- C2 witness: a fresh state observing a tag-5 frame stores and sends the
decoded beacon (first-observation conjunct at concrete inputs). -/
theorem c2_witness :
    scannerIter stFresh 5 none
        (some (some "AA", some (153 :: 4 :: 5 :: zeroFrameRest)))
      = .next { stFresh with
          inventory := alInsert "AA" ⟨zeroPayload, 5, "AA"⟩ stFresh.inventory
          sent := stFresh.sent ++ [⟨zeroPayload, 5, "AA"⟩] } :=
  (c2_frame_recognition stFresh 5 "AA" rfl).2.2.1 zeroFrameRest zeroPayload
    (by decide) (by decide)

/-- A 10-byte payload body: too short for the 17-byte v5 view. -/
def shortRest : List Nat := List.replicate 10 0

/-- C3 counterexample: a `0x99 0x04 0x05` frame with only 10 payload bytes
makes the event-processing step propagate an error out of `start_scanner`
(scanner.rs lines 302-308 `return Err(...)`), contradicting "the decode
error is logged and only that single frame is dropped: the scanner loop
continues, and start_scanner neither returns nor propagates an error". -/
theorem c3_counterexample :
    scannerIter stFresh 0 none
        (some (some "AA", some (153 :: 4 :: 5 :: shortRest)))
      = .fatal stFresh := by
  rfl

/-- C3 (amended): for a `0x99 0x04 0x05` frame, the v5 view fails exactly
when fewer than 17 payload bytes follow the format tag (the size of the
fixed-field structure; 17-23 byte payloads decode fine), and on a decode
failure `start_scanner` RETURNS the error (`Err` propagates out of the
loop) rather than logging and dropping the single frame. -/
theorem c3_decode_error_propagates (st : ScannerState) (now : Int)
    (addr : String) (hbt : st.btReserved = true) :
    (∀ rest, rest.length < 17 →
        scannerIter st now none
            (some (some addr, some (153 :: 4 :: 5 :: rest))) = .fatal st)
    ∧ (∀ rest, 17 ≤ rest.length → ∀ s,
        scannerIter st now none
            (some (some addr, some (153 :: 4 :: 5 :: rest))) ≠ .fatal s) := by
  constructor
  · intro rest hlen
    have hv : RuuviTagDataFormat5.view rest = none := by
      simp only [RuuviTagDataFormat5.view, ite_eq_right_iff]
      omega
    simp [scannerIter, scanEvent, hbt, hv]
  · intro rest hlen s
    have hv : RuuviTagDataFormat5.view rest
        = some ⟨be16 rest 0, be16 rest 2, be16 rest 4, be16 rest 6,
            be16 rest 8, be16 rest 10, be16 rest 12, rest.getD 14 0,
            be16 rest 15⟩ := by
      simp [RuuviTagDataFormat5.view, hlen]
    rcases hl : alLookup addr st.inventory with _ | old
    · simp [scannerIter, scanEvent, hbt, hv, hl]
    · simp only [scannerIter, scanEvent, hbt, if_true, List.getElem?_cons_zero,
        List.getElem?_cons_succ, List.drop_succ_cons, List.drop_zero, hv, hl]
      split_ifs <;> simp

/-- C3 witness: a 5-byte payload body is below the 17-byte view size, and
the step yields the propagated-error result. -/
theorem c3_witness :
    scannerIter stFresh 0 none
        (some (some "AA", some (153 :: 4 :: 5 :: List.replicate 5 0)))
      = .fatal stFresh :=
  (c3_decode_error_propagates stFresh 0 "AA" rfl).1 (List.replicate 5 0)
    (by decide)

/-- All-zero payload except a measurement sequence number of 1: prints
differently from `zeroPayload` (the sequence number is rendered in full). -/
def seqOnePayload : RuuviTagDataFormat5 := ⟨0, 0, 0, 0, 0, 0, 0, 0, 1⟩

/-- 17 payload bytes decoding to `seqOnePayload`. -/
def seqOneRest : List Nat := List.replicate 16 0 ++ [1]

/-- C4 counterexample: when the stuck-stack check fires, `start_scanner`
returns RESTART (`Ok(false)`) but does NOT release the adapter — the
returned state still holds the reservation (`btReserved = true`;
scanner.rs lines 329-335 return without calling `release_adapter`),
contradicting "the scanner releases the adapter and start_scanner returns
RESTART". -/
theorem c4_counterexample :
    scannerIter stStuck 200 none
        (some (some "AA", some (153 :: 4 :: 5 :: zeroFrameRest)))
      = .restart stStuck
    ∧ stStuck.btReserved = true := by
  have hv : RuuviTagDataFormat5.view zeroFrameRest = some zeroPayload := by
    decide
  refine ⟨?_, rfl⟩
  norm_num [scannerIter, scanEvent, stStuck, hv, beaconA0, alLookup,
    ScannerState.stuckThreshold]

/-- C4 (amended): staleness-inventory dynamics of the scanner.  The first
observed beacon for an address is stored; a later beacon whose arrival time
exceeds the stored beacon's timestamp by at least the configured
`stuck_data_threshold` (default 180 s, values ≤ 0 replaced by 180) either
(identical payload rendering) makes `start_scanner` return RESTART — with
the state unchanged, so the adapter remains reserved; the release only
happens on the next `start_scanner` entry — or (differing rendering)
replaces the stored beacon and continues; a beacon arriving before the
threshold elapses leaves the stored entry unchanged. -/
theorem c4_stuck_inventory (st : ScannerState) (now : Int) (addr : String)
    (hbt : st.btReserved = true) :
    (∀ rest payload, RuuviTagDataFormat5.view rest = some payload →
        alLookup addr st.inventory = none →
        scannerIter st now none
            (some (some addr, some (153 :: 4 :: 5 :: rest)))
          = .next { st with
              inventory := alInsert addr ⟨payload, now, addr⟩ st.inventory
              sent := st.sent ++ [⟨payload, now, addr⟩] })
    ∧ (∀ rest payload old, RuuviTagDataFormat5.view rest = some payload →
        alLookup addr st.inventory = some old →
        st.stuckThreshold ≤ now - old.timestamp →
        payload.display = old.data.display →
        scannerIter st now none
            (some (some addr, some (153 :: 4 :: 5 :: rest)))
          = .restart st)
    ∧ (∀ rest payload old, RuuviTagDataFormat5.view rest = some payload →
        alLookup addr st.inventory = some old →
        st.stuckThreshold ≤ now - old.timestamp →
        payload.display ≠ old.data.display →
        scannerIter st now none
            (some (some addr, some (153 :: 4 :: 5 :: rest)))
          = .next { st with
              inventory := alInsert addr ⟨payload, now, addr⟩ st.inventory
              sent := st.sent ++ [⟨payload, now, addr⟩] })
    ∧ (∀ rest payload old, RuuviTagDataFormat5.view rest = some payload →
        alLookup addr st.inventory = some old →
        now - old.timestamp < st.stuckThreshold →
        scannerIter st now none
            (some (some addr, some (153 :: 4 :: 5 :: rest)))
          = .next { st with sent := st.sent ++ [⟨payload, now, addr⟩] })
    ∧ (st.stuck_data_threshold = none → st.stuckThreshold = 180)
    ∧ (∀ t, st.stuck_data_threshold = some t → t ≤ 0 →
        st.stuckThreshold = 180)
    ∧ (∀ t, st.stuck_data_threshold = some t → 0 < t →
        st.stuckThreshold = t) := by
  refine ⟨?_, ?_, ?_, ?_, ?_, ?_, ?_⟩
  · intro rest payload hv hl
    simp [scannerIter, scanEvent, hbt, hv, hl]
  · intro rest payload old hv hl hth hd
    simp [scannerIter, scanEvent, hbt, hv, hl, hth, hd]
  · intro rest payload old hv hl hth hd
    simp [scannerIter, scanEvent, hbt, hv, hl, hth, hd]
  · intro rest payload old hv hl hlt
    have hth : ¬(st.stuckThreshold ≤ now - old.timestamp) := not_le.mpr hlt
    simp [scannerIter, scanEvent, hbt, hv, hl, hth]
  · intro h
    simp [ScannerState.stuckThreshold, h]
  · intro t h ht
    simp [ScannerState.stuckThreshold, h, ht]
  · intro t h ht
    simp [ScannerState.stuckThreshold, h, not_le.mpr ht]

/-- C4 witness: past the threshold with a differing sequence number, the
stored beacon for the address is replaced and the beacon is relayed. -/
theorem c4_witness :
    scannerIter stStuck 200 none
        (some (some "AA", some (153 :: 4 :: 5 :: seqOneRest)))
      = .next { stStuck with
          inventory := alInsert "AA" ⟨seqOnePayload, 200, "AA"⟩ stStuck.inventory
          sent := stStuck.sent ++ [⟨seqOnePayload, 200, "AA"⟩] } :=
  (c4_stuck_inventory stStuck 200 "AA" rfl).2.2.1 seqOneRest seqOnePayload
    beaconA0 (by decide) (by decide) (by decide)
    (by
      simp [RuuviTagDataFormat5.display, beaconA0, seqOnePayload, zeroPayload,
        RuuviDisplay.mk.injEq, RuuviTagDataFormat5.get_measurement_sequence_number])

/-! ## Broker client (src/iotcore.rs, `IotCoreClient`) -/

/-- Payload of an outbound MQTT publish.  The Rust code publishes strings
produced by `serde_json::to_string_pretty` (or the literal empty object for
attach/detach); the serializer is injective on these shapes, so payloads are
modelled structurally. -/
inductive PubPayload
  | emptyObj
  | state (c : CollectConfig)
  | single (b : RuuviBluetoothBeacon)
  | batch (l : List RuuviBluetoothBeacon)
deriving DecidableEq, Repr

/-- One `client.publish` call: topic, payload, QoS, and whether the broker
accepted it. -/
structure PubAttempt where
  topic : String
  payload : PubPayload
  qos : Nat
  ok : Bool
deriving DecidableEq, Repr

/-- The broker-client state (`IotCoreClient` fields plus effect logs).
`jwtExp`/`jwtLifetime` model `jwt_factory` (issue time arithmetic in
seconds), `connOptsExp` the token baked into `conn_opts`, `published` the
chronological log of `client.publish` attempts, `cncOut` the messages sent
onto the C&C channel. -/
structure ClientState where
  device_id : String
  connected : Bool
  jwtExp : Int
  jwtLifetime : Int
  connOptsExp : Int
  lastSeen : Int
  lastPause : Option Int
  collectconfig : Option CollectConfig
  discoveredTags : List (String × List RuuviBluetoothBeacon)
  published : List PubAttempt
  cncOut : List IOTCoreCNCMessageKind
deriving DecidableEq, Repr

/-- The broker as an oracle: whether a publish of this topic/payload is
accepted. -/
structure Env where
  pubOk : String → PubPayload → Bool

/-- `IotCoreAuthToken::is_valid(threshold)`: false iff the current time is
past `exp - threshold`. -/
def jwtIsValid (exp threshold now : Int) : Bool :=
  if now > exp - threshold then false else true

/-- `state_topic`. -/
def stateTopic (deviceId : String) : String :=
  "/devices/" ++ deviceId ++ "/state"

/-- `device_attach_topic` (the address stands for its canonical uppercase
rendering). -/
def deviceAttachTopic (addr : String) : String :=
  "/devices/" ++ addr ++ "/attach"

/-- `device_detach_topic`. -/
def deviceDetachTopic (addr : String) : String :=
  "/devices/" ++ addr ++ "/detach"

/-- The events topic for one address under a collect config
(`/devices/<ADDR>/events[/<subfolder>]`). -/
def eventTopicName (cc : CollectConfig) (addr : String) : String :=
  match cc.event_subfolder with
  | some folder => "/devices/" ++ addr ++ "/events/" ++ folder
  | none => "/devices/" ++ addr ++ "/events"

/-- `device_event_topic`: `None` without an active collect config. -/
def ClientState.deviceEventTopic (st : ClientState) (addr : String) :
    Option String :=
  st.collectconfig.map fun cc => eventTopicName cc addr

mutual

/-- `publish_message` (iotcore.rs lines 80-113): if the JWT is within 60
seconds of expiry or the client is not connected, first disconnect, renew
the JWT, rebuild the connection options with the new token and reconnect
(which reattaches known tags, hence the fuel); then construct the QoS 1
message and publish it, surfacing the broker's verdict.  Fuel exhaustion
(only reachable through unboundedly nested reconnects) reports a failed
publish. -/
def publishMessage : Nat → Env → Int → ClientState → String → PubPayload →
    ClientState × Bool
  | 0, _, _, st, _, _ => (st, false)
  | fuel + 1, env, now, st, topic, msg =>
    let st1 :=
      if !jwtIsValid st.jwtExp 60 now || !st.connected then
        let st2 := { st with connected := false }
        let newExp := now + st2.jwtLifetime
        connectClient fuel env now
          { st2 with jwtExp := newExp, connOptsExp := newExp }
      else st
    let ok := env.pubOk topic msg
    ({ st1 with published := st1.published ++ [⟨topic, msg, 1, ok⟩] }, ok)
termination_by fuel _ _ _ _ _ => (fuel, 0, 0)

/-- `connect` (iotcore.rs lines 135-159): establish the session, subscribe
to the C&C topics (modelled as succeeding), then reattach all discovered
devices. -/
def connectClient : Nat → Env → Int → ClientState → ClientState
  | fuel, env, now, st =>
    reattachDiscoveredDevices fuel env now { st with connected := true }
termination_by fuel _ _ _ => (fuel, 3, 0)

/-- `reattach_discovered_devices` (iotcore.rs lines 384-400): while
connected, republish attach for every tag in a snapshot of the map,
removing a tag whose attach publish fails. -/
def reattachDiscoveredDevices : Nat → Env → Int → ClientState → ClientState
  | fuel, env, now, st =>
    if st.connected then
      reattachGo fuel env now st (st.discoveredTags.map Prod.fst)
    else st
termination_by fuel _ _ _ => (fuel, 2, 0)

/-- Iteration core of `reattach_discovered_devices` over the cloned key
snapshot. -/
def reattachGo : Nat → Env → Int → ClientState → List String → ClientState
  | _, _, _, st, [] => st
  | fuel, env, now, st, tag :: rest =>
    let p := publishMessage fuel env now st (deviceAttachTopic tag) .emptyObj
    let st1 :=
      if p.2 then p.1
      else { p.1 with discoveredTags := alErase tag p.1.discoveredTags }
    reattachGo fuel env now st1 rest
termination_by fuel _ _ _ l => (fuel, 1, l.length)

end

/-- `try_attach_device` (iotcore.rs lines 362-382): when connected and the
address is unknown, publish `{}` to its attach topic; on success create the
empty pending-batch entry, on failure report false; otherwise do nothing
and report true. -/
def tryAttachDevice (fuel : Nat) (env : Env) (now : Int) (st : ClientState)
    (addr : String) : ClientState × Bool :=
  if st.connected ∧ alLookup addr st.discoveredTags = none then
    let p := publishMessage fuel env now st (deviceAttachTopic addr) .emptyObj
    if p.2 then
      ({ p.1 with discoveredTags := alInsert addr [] p.1.discoveredTags }, true)
    else (p.1, false)
  else (st, true)

/-- Iteration core of `detach_devices`. -/
def detachGo (fuel : Nat) (env : Env) (now : Int) :
    ClientState → List String → ClientState
  | st, [] => st
  | st, tag :: rest =>
    detachGo fuel env now
      (publishMessage fuel env now st (deviceDetachTopic tag) .emptyObj).1 rest

/-- `detach_devices` (iotcore.rs lines 402-414): while connected, publish
`{}` to every known tag's detach topic (failures are only logged). -/
def detachDevices (fuel : Nat) (env : Env) (now : Int) (st : ClientState) :
    ClientState :=
  if st.connected then detachGo fuel env now st (st.discoveredTags.map Prod.fst)
  else st

/-- `set_collecting_state` (iotcore.rs lines 161-175): with an active
config, flip its `collecting` flag and publish the whole config to the
state topic; without one, only log. -/
def setCollectingState (fuel : Nat) (env : Env) (now : Int) (st : ClientState)
    (enabled : Bool) : ClientState × Bool :=
  match st.collectconfig with
  | some cc =>
    let newcc := { cc with collecting := enabled }
    publishMessage fuel env now { st with collectconfig := some newcc }
      (stateTopic st.device_id) (.state newcc)
  | none => (st, true)

/-- `enable_collecting`: on success clear the pause timer. -/
def enableCollecting (fuel : Nat) (env : Env) (now : Int) (st : ClientState) :
    ClientState × Bool :=
  let p := setCollectingState fuel env now st true
  (if p.2 then { p.1 with lastPause := none } else p.1, p.2)

/-- `disable_collecting`: on success start/reset the pause timer. -/
def disableCollecting (fuel : Nat) (env : Env) (now : Int) (st : ClientState) :
    ClientState × Bool :=
  let p := setCollectingState fuel env now st false
  (if p.2 then { p.1 with lastPause := some now } else p.1, p.2)

/-- An inbound MQTT message from the consumer stream, classified by topic
with its `serde_json` parse result (`none` models a parse failure, which is
logged and dropped). -/
inductive InMsg
  | config (c : Option CollectConfig)
  | command (c : Option CNCCommandMessage)
  | other
deriving DecidableEq, Repr

/-- Result of one `start_client` loop iteration (see `ScanIterResult`). -/
inductive ClientIterResult
  | next (st : ClientState)
  | restart (st : ClientState)
  | clean (st : ClientState)
  | fatal (st : ClientState)
  | panicked (st : ClientState)
deriving DecidableEq, Repr

/-- Extract the client state carried by an iteration result. -/
def ClientIterResult.state : ClientIterResult → ClientState
  | .next st => st
  | .restart st => st
  | .clean st => st
  | .fatal st => st
  | .panicked st => st

/-- The consumer half of the loop body (iotcore.rs lines 221-292): a config
different from the active one is activated (pausing/resuming, which
publishes state — a failure there propagates) and forwarded on the C&C
channel; a command is forwarded and acted on locally (COLLECT/PAUSE flip
the collecting state; SHUTDOWN detaches all tags, breaks the loop, and the
post-loop disconnect runs; RESET disconnects, forwards the active config,
and restarts). -/
def handleCnc (fuel : Nat) (env : Env) (now : Int) (st : ClientState) :
    Option InMsg → ClientIterResult
  | none => .next st
  | some .other => .next st
  | some (.config newcc) =>
    if newcc ≠ st.collectconfig ∧ newcc.isSome then
      match newcc with
      | some cc =>
        let st1 := { st with collectconfig := some cc }
        let p :=
          if !cc.collecting then disableCollecting fuel env now st1
          else enableCollecting fuel env now st1
        if p.2 then
          .next { p.1 with cncOut := p.1.cncOut ++ [.CONFIG p.1.collectconfig] }
        else .fatal p.1
      | none => .next st
    else .next st
  | some (.command pc) =>
    let st1 := { st with cncOut := st.cncOut ++ [.COMMAND pc] }
    match pc with
    | none => .next st1
    | some cmd =>
      match cmd.command with
      | .COLLECT =>
        let p := enableCollecting fuel env now st1
        if p.2 then .next p.1 else .fatal p.1
      | .PAUSE =>
        let p := disableCollecting fuel env now st1
        if p.2 then .next p.1 else .fatal p.1
      | .SHUTDOWN =>
        let st2 := detachDevices fuel env now st1
        .clean { st2 with connected := false }
      | .RESET =>
        let st2 := { st1 with connected := false }
        .restart { st2 with cncOut := st2.cncOut ++ [.CONFIG st2.collectconfig] }

/-- The beacon half of the loop body (iotcore.rs lines 294-351): reset
`last_seen`; while collecting, attach if needed and publish the beacon
(individually, or batched per `collection_size`); while paused, republish
the paused state every 4 minutes.  The `collectconfig` unwrap panics
without an active config. -/
def handleBeacon (fuel : Nat) (env : Env) (now : Int) (st0 : ClientState)
    (b : RuuviBluetoothBeacon) : ClientIterResult :=
  let st := { st0 with lastSeen := now }
  let queue := (alLookup b.address st.discoveredTags).getD []
  match st.collectconfig with
  | none => .panicked st
  | some cc =>
    if cc.collecting then
      let pa := tryAttachDevice fuel env now st b.address
      if pa.2 then
        match pa.1.deviceEventTopic b.address with
        | none => .panicked pa.1
        | some topic =>
          if cc.collectionSize ≤ 1 then
            .next (publishMessage fuel env now pa.1 topic (.single b)).1
          else if cc.collectionSize - 1 ≤ queue.length then
            let p := publishMessage fuel env now pa.1 topic (.batch (queue ++ [b]))
            if p.2 then
              .next { p.1 with
                discoveredTags := alInsert b.address [] p.1.discoveredTags }
            else .next p.1
          else
            .next { pa.1 with
              discoveredTags :=
                alInsert b.address (queue ++ [b]) pa.1.discoveredTags }
      else .next pa.1
    else
      match st.lastPause with
      | some lp =>
        if (4 * 60 : Int) ≤ now - lp then
          let p := disableCollecting fuel env now st
          if p.2 then .next p.1 else .fatal p.1
        else .next st
      | none => .next st

/-- One iteration of the `start_client` loop (iotcore.rs lines 206-355):
the 58-second beacon-silence watchdog (emit RESET on the C&C channel,
disconnect if connected, return RESTART), then the consumer poll, then the
beacon-channel poll. -/
def startClientIter (fuel : Nat) (env : Env) (st : ClientState) (now : Int)
    (cncIn : Option InMsg) (beaconIn : Option RuuviBluetoothBeacon) :
    ClientIterResult :=
  if (58 : Int) ≤ now - st.lastSeen then
    let st1 := { st with cncOut :=
      st.cncOut ++ [IOTCoreCNCMessageKind.COMMAND (some ⟨CNCCommand.RESET⟩)] }
    .restart { st1 with connected := false }
  else
    match handleCnc fuel env now st cncIn with
    | .next st1 =>
      match beaconIn with
      | some b => handleBeacon fuel env now st1 b
      | none => .next st1
    | r => r

/-- The client-state components that `publish_message` (and the reconnect
cycle inside it) never writes: identity, timers, active config. -/
def coreAgrees (a b : ClientState) : Prop :=
  a.device_id = b.device_id ∧ a.lastSeen = b.lastSeen
    ∧ a.lastPause = b.lastPause ∧ a.collectconfig = b.collectconfig
    ∧ a.jwtLifetime = b.jwtLifetime

theorem coreAgrees_refl (a : ClientState) : coreAgrees a a :=
  ⟨rfl, rfl, rfl, rfl, rfl⟩

theorem coreAgrees_trans {a b c : ClientState} (h1 : coreAgrees a b)
    (h2 : coreAgrees b c) : coreAgrees a c := by
  obtain ⟨p1, p2, p3, p4, p5⟩ := h1
  obtain ⟨q1, q2, q3, q4, q5⟩ := h2
  exact ⟨p1.trans q1, p2.trans q2, p3.trans q3, p4.trans q4, p5.trans q5⟩

/-- `publish_message`, `connect` and the reattach walk only touch the
session fields (`connected`, the JWT, `published`, `discoveredTags`). -/
theorem clientPreserve (fuel : Nat) :
    (∀ env now st topic msg,
        coreAgrees (publishMessage fuel env now st topic msg).1 st)
    ∧ (∀ env now st l, coreAgrees (reattachGo fuel env now st l) st)
    ∧ (∀ env now st, coreAgrees (reattachDiscoveredDevices fuel env now st) st)
    ∧ (∀ env now st, coreAgrees (connectClient fuel env now st) st) := by
  induction fuel with
  | zero =>
    have hpub : ∀ env now st topic msg,
        coreAgrees (publishMessage 0 env now st topic msg).1 st := by
      intro env now st topic msg
      simp only [publishMessage]
      exact coreAgrees_refl st
    have hgo : ∀ env now (l : List String) st,
        coreAgrees (reattachGo 0 env now st l) st := by
      intro env now l
      induction l with
      | nil => intro st; simp only [reattachGo]; exact coreAgrees_refl st
      | cons tag rest ih =>
        intro st
        simp only [reattachGo, publishMessage]
        exact coreAgrees_trans (ih _) (coreAgrees_refl st)
    refine ⟨hpub, fun env now st l => hgo env now l st, ?_, ?_⟩
    · intro env now st
      simp only [reattachDiscoveredDevices]
      split
      · exact hgo env now _ st
      · exact coreAgrees_refl st
    · intro env now st
      simp only [reattachDiscoveredDevices, connectClient]
      split
      · exact hgo env now _ _
      · exact coreAgrees_refl _
  | succ n ih =>
    have hpub : ∀ env now st topic msg,
        coreAgrees (publishMessage (n + 1) env now st topic msg).1 st := by
      intro env now st topic msg
      simp only [publishMessage]
      split
      · exact ih.2.2.2 env now _
      · exact coreAgrees_refl st
    have hgo : ∀ env now (l : List String) st,
        coreAgrees (reattachGo (n + 1) env now st l) st := by
      intro env now l
      induction l with
      | nil => intro st; simp only [reattachGo]; exact coreAgrees_refl st
      | cons tag rest ihl =>
        intro st
        simp only [reattachGo]
        refine coreAgrees_trans (ihl _) ?_
        split
        · exact hpub env now st _ _
        · exact hpub env now st _ _
    refine ⟨hpub, fun env now st l => hgo env now l st, ?_, ?_⟩
    · intro env now st
      simp only [reattachDiscoveredDevices]
      split
      · exact hgo env now _ st
      · exact coreAgrees_refl st
    · intro env now st
      simp only [reattachDiscoveredDevices, connectClient]
      split
      · exact hgo env now _ _
      · exact coreAgrees_refl _

theorem tryAttachDevice_lastSeen (fuel : Nat) (env : Env) (now : Int)
    (st : ClientState) (addr : String) :
    ((tryAttachDevice fuel env now st addr).1).lastSeen = st.lastSeen := by
  have hpub : ∀ topic msg,
      ((publishMessage fuel env now st topic msg).1).lastSeen = st.lastSeen :=
    fun topic msg => ((clientPreserve fuel).1 env now st topic msg).2.1
  simp only [tryAttachDevice]
  split
  · split <;> simp [hpub]
  · rfl

theorem setCollectingState_lastSeen (fuel : Nat) (env : Env) (now : Int)
    (st : ClientState) (e : Bool) :
    ((setCollectingState fuel env now st e).1).lastSeen = st.lastSeen := by
  simp only [setCollectingState]
  split
  · exact ((clientPreserve fuel).1 env now _ _ _).2.1
  · rfl

theorem disableCollecting_lastSeen (fuel : Nat) (env : Env) (now : Int)
    (st : ClientState) :
    ((disableCollecting fuel env now st).1).lastSeen = st.lastSeen := by
  simp only [disableCollecting]
  split <;> simp [setCollectingState_lastSeen]

/-- Every exit of the beacon half of the loop body carries
`last_seen = now`: receiving a beacon resets the watchdog timestamp, and
none of the publishing paths touches it again. -/
theorem handleBeacon_lastSeen (fuel : Nat) (env : Env) (now : Int)
    (st0 : ClientState) (b : RuuviBluetoothBeacon) :
    ((handleBeacon fuel env now st0 b).state).lastSeen = now := by
  have hpub : ∀ st topic msg,
      ((publishMessage fuel env now st topic msg).1).lastSeen = st.lastSeen :=
    fun st topic msg => ((clientPreserve fuel).1 env now st topic msg).2.1
  simp only [handleBeacon]
  repeat' split
  all_goals
    simp [ClientIterResult.state, hpub, tryAttachDevice_lastSeen,
      disableCollecting_lastSeen]

/-- C5: whenever at least 58 seconds have elapsed since `last_seen` at the
top of the broker client's loop, the iteration sends `Command{RESET}` onto
the C&C channel, disconnects, and `start_client` returns RESTART
(`Ok(false)`); and each received beacon resets the `last_seen` timestamp
to the reception time. -/
theorem c5_watchdog (fuel : Nat) (env : Env) (st : ClientState) (now : Int)
    (cncIn : Option InMsg) (beaconIn : Option RuuviBluetoothBeacon) :
    ((58 : Int) ≤ now - st.lastSeen →
      startClientIter fuel env st now cncIn beaconIn
        = .restart { st with
            cncOut := st.cncOut
              ++ [IOTCoreCNCMessageKind.COMMAND (some ⟨CNCCommand.RESET⟩)]
            connected := false })
    ∧ (∀ b, now - st.lastSeen < 58 →
        ((startClientIter fuel env st now none (some b)).state).lastSeen
          = now) := by
  constructor
  · intro h
    simp [startClientIter, h]
  · intro b hlt
    have h1 : ¬ ((58 : Int) ≤ now - st.lastSeen) := not_le.mpr hlt
    simp only [startClientIter, h1, if_false, handleCnc]
    exact handleBeacon_lastSeen fuel env now st b

/-- A broker environment that accepts every publish. -/
def envAll : Env := ⟨fun _ _ => true⟩

/-- A collect config: collecting, no subfolder, default threshold, batches
of 3, no bluetooth override. -/
def ccBatch : CollectConfig := ⟨true, none, none, some 3, none⟩

/-- A connected client with a fresh JWT and an empty tag map. -/
def stClient : ClientState :=
  ⟨"dev", true, 4000, 3600, 4000, 0, none, some ccBatch, [], [], []⟩

/-- C5 witness: 60 silent seconds trigger the RESET/disconnect/RESTART
path, and a beacon at t=10 resets `last_seen` to 10. -/
theorem c5_witness :
    startClientIter 1 envAll stClient 60 none none
      = .restart { stClient with
          cncOut := stClient.cncOut
            ++ [IOTCoreCNCMessageKind.COMMAND (some ⟨CNCCommand.RESET⟩)]
          connected := false }
    ∧ ((startClientIter 1 envAll stClient 10 none
          (some ⟨zeroPayload, 10, "AA"⟩)).state).lastSeen = 10 :=
  ⟨(c5_watchdog 1 envAll stClient 60 none none).1 (by decide),
   (c5_watchdog 1 envAll stClient 10 none
      (some ⟨zeroPayload, 10, "AA"⟩)).2 ⟨zeroPayload, 10, "AA"⟩ (by decide)⟩

/-- With a fresh-enough JWT and a live session, `publish_message` goes
straight to the QoS 1 publish on the existing session. -/
theorem publishMessage_direct (fuel : Nat) (env : Env) (now : Int)
    (st : ClientState) (topic : String) (msg : PubPayload)
    (hv : jwtIsValid st.jwtExp 60 now = true) (hc : st.connected = true) :
    publishMessage (fuel + 1) env now st topic msg
      = ({ st with published :=
            st.published ++ [⟨topic, msg, 1, env.pubOk topic msg⟩] },
         env.pubOk topic msg) := by
  simp [publishMessage, hv, hc]

/-- The attach attempt recorded for one tag during a reattach walk. -/
def attachAttempt (env : Env) (k : String) : PubAttempt :=
  ⟨deviceAttachTopic k, .emptyObj, 1, env.pubOk (deviceAttachTopic k) .emptyObj⟩

/-- The reattach walk over a key snapshot, with a live session and valid
JWT: it records one attach attempt per key and erases from the tag map
exactly the keys whose attach publish the broker refuses. -/
theorem reattachGo_direct (f : Nat) (env : Env) (now : Int) :
    ∀ (keys : List String) (st : ClientState),
      jwtIsValid st.jwtExp 60 now = true → st.connected = true →
      reattachGo (f + 1) env now st keys
        = { st with
            discoveredTags := st.discoveredTags.filter
              (fun p => !((keys.filter (fun k =>
                  !(env.pubOk (deviceAttachTopic k) .emptyObj))).contains p.1))
            published := st.published ++ keys.map (attachAttempt env) } := by
  intro keys
  induction keys with
  | nil =>
    intro st hv hc
    simp [reattachGo]
  | cons k rest ih =>
    intro st hv hc
    rw [reattachGo, publishMessage_direct f env now st _ _ hv hc]
    cases hok : env.pubOk (deviceAttachTopic k) PubPayload.emptyObj with
    | true =>
      simp only [hok, if_true]
      rw [ih { st with published := st.published
            ++ [⟨deviceAttachTopic k, PubPayload.emptyObj, 1, true⟩] } hv hc]
      simp [attachAttempt, hok, List.filter_cons]
    | false =>
      simp only [hok, Bool.false_eq_true, if_false]
      rw [ih { st with
            discoveredTags := alErase k st.discoveredTags
            published := st.published
              ++ [⟨deviceAttachTopic k, PubPayload.emptyObj, 1, false⟩] } hv hc]
      simp only [attachAttempt, hok, List.filter_cons, Bool.not_false,
        if_true, List.map_cons, ClientState.mk.injEq, true_and, and_true,
        List.append_assoc, List.singleton_append]
      rw [alErase, List.filter_filter]
      apply List.filter_congr
      intro p _
      by_cases hpk : p.1 = k <;>
        simp [List.contains_cons, Bool.not_or, bne, hpk, Bool.and_comm]

/-- Folding the failing-key erasures over the map amounts to keeping
exactly the entries whose own attach publish the broker accepts. -/
theorem filter_keys_pubOk (env : Env)
    (l : List (String × List RuuviBluetoothBeacon)) :
    l.filter (fun p => !(((l.map Prod.fst).filter (fun k =>
        !(env.pubOk (deviceAttachTopic k) PubPayload.emptyObj))).contains p.1))
      = l.filter
          (fun p => env.pubOk (deviceAttachTopic p.1) PubPayload.emptyObj) := by
  apply List.filter_congr
  intro p hp
  have hmem : p.1 ∈ l.map Prod.fst := List.mem_map_of_mem _ hp
  cases hok : env.pubOk (deviceAttachTopic p.1) PubPayload.emptyObj with
  | false => simp [List.mem_filter, hmem, hok]
  | true => simp [List.mem_filter, hok]

theorem alLookup_none_countP {β : Type} (k : String) (l : List (String × β))
    (h : alLookup k l = none) : l.countP (fun p => p.1 == k) = 0 := by
  induction l with
  | nil => simp
  | cons hd tl ih =>
    obtain ⟨k', v⟩ := hd
    simp only [alLookup] at h
    by_cases hk : k' = k
    · simp [hk] at h
    · simp only [hk, if_false] at h
      simp [List.countP_cons, ih h, hk]

theorem alInsert_countP {β : Type} (k : String) (v : β)
    (l : List (String × β)) (h : alLookup k l = none) :
    (alInsert k v l).countP (fun p => p.1 == k) = 1 := by
  induction l with
  | nil => simp [alInsert, List.countP_cons]
  | cons hd tl ih =>
    obtain ⟨k', v'⟩ := hd
    simp only [alLookup] at h
    by_cases hk : k' = k
    · simp [hk] at h
    · simp only [hk, if_false] at h
      simp [alInsert, hk, List.countP_cons, ih h]

/-- C7: attach is idempotent on the pending-batch map.  While connected
(with a usable JWT so the publish gate stays closed): the first beacon for
an unknown address publishes `{}` to its attach topic and, on success,
creates exactly one empty pending-batch entry; an attach attempt for an
address already in the map publishes nothing and leaves the state
untouched; and every (re)connect republishes attach for every address in
the map, removing exactly those addresses whose attach publish fails. -/
theorem c7_attach_idempotent (fuel : Nat) (env : Env) (now : Int)
    (st : ClientState) (addr : String)
    (hv : jwtIsValid st.jwtExp 60 now = true) :
    (st.connected = true → alLookup addr st.discoveredTags = none →
      env.pubOk (deviceAttachTopic addr) PubPayload.emptyObj = true →
      tryAttachDevice (fuel + 1) env now st addr
        = ({ st with
              discoveredTags := alInsert addr [] st.discoveredTags
              published := st.published
                ++ [⟨deviceAttachTopic addr, PubPayload.emptyObj, 1, true⟩] },
           true)
        ∧ (alInsert addr [] st.discoveredTags).countP
            (fun p => p.1 == addr) = 1)
    ∧ (∀ q, alLookup addr st.discoveredTags = some q →
        tryAttachDevice fuel env now st addr = (st, true))
    ∧ (connectClient (fuel + 1) env now st
        = { st with
            connected := true
            discoveredTags := st.discoveredTags.filter
              (fun p => env.pubOk (deviceAttachTopic p.1) PubPayload.emptyObj)
            published := st.published
              ++ (st.discoveredTags.map Prod.fst).map (attachAttempt env) }) := by
  refine ⟨?_, ?_, ?_⟩
  · intro hconn hnone hok
    have hd := publishMessage_direct fuel env now st (deviceAttachTopic addr)
      PubPayload.emptyObj hv hconn
    constructor
    · simp [tryAttachDevice, hconn, hnone, hd, hok]
    · exact alInsert_countP addr [] st.discoveredTags hnone
  · intro q hq
    simp [tryAttachDevice, hq]
  · rw [connectClient, reattachDiscoveredDevices]
    simp only [if_true]
    rw [reattachGo_direct fuel env now _ { st with connected := true } hv rfl]
    rw [filter_keys_pubOk]

/-- A broker that refuses attaches for tag `BB` and accepts all else. -/
def envNoBB : Env := ⟨fun t _ => t != deviceAttachTopic "BB"⟩

/-- A connected client whose map holds the tags `AA` and `BB`. -/
def stTwoTags : ClientState :=
  ⟨"dev", true, 4000, 3600, 4000, 0, none, some ccBatch,
   [("AA", []), ("BB", [])], [], []⟩

/-- C7 witness: first attach of `AA` creates its single empty entry;
re-attaching an existing `AA` entry is a no-op; reconnecting with `BB`'s
attach refused keeps exactly `AA`. -/
theorem c7_witness :
    (tryAttachDevice 1 envAll 0 stClient "AA"
        = ({ stClient with
              discoveredTags := alInsert "AA" [] stClient.discoveredTags
              published := stClient.published
                ++ [⟨deviceAttachTopic "AA", PubPayload.emptyObj, 1, true⟩] },
           true)
      ∧ (alInsert "AA" [] stClient.discoveredTags).countP
          (fun p => p.1 == "AA") = 1)
    ∧ tryAttachDevice 1 envAll 0 stTwoTags "AA" = (stTwoTags, true)
    ∧ connectClient 1 envNoBB 0 stTwoTags
        = { stTwoTags with
            connected := true
            discoveredTags := stTwoTags.discoveredTags.filter
              (fun p => envNoBB.pubOk (deviceAttachTopic p.1)
                PubPayload.emptyObj)
            published := stTwoTags.published
              ++ (stTwoTags.discoveredTags.map Prod.fst).map
                  (attachAttempt envNoBB) } :=
  ⟨(c7_attach_idempotent 0 envAll 0 stClient "AA" (by decide)).1 rfl rfl rfl,
   (c7_attach_idempotent 1 envAll 0 stTwoTags "AA" (by decide)).2.1 [] rfl,
   (c7_attach_idempotent 0 envNoBB 0 stTwoTags "AA" (by decide)).2.2⟩

/-- An attach attempt for an address already in the map is a no-op that
reports success. -/
theorem tryAttachDevice_attached (fuel : Nat) (env : Env) (now : Int)
    (st : ClientState) (addr : String) (q : List RuuviBluetoothBeacon)
    (hq : alLookup addr st.discoveredTags = some q) :
    tryAttachDevice fuel env now st addr = (st, true) := by
  simp [tryAttachDevice, hq]

theorem deviceEventTopic_some (st : ClientState) (addr : String)
    (cc : CollectConfig) (hcc : st.collectconfig = some cc) :
    st.deviceEventTopic addr = some (eventTopicName cc addr) := by
  simp [ClientState.deviceEventTopic, hcc]

/-- Inside the watchdog window with nothing on the consumer stream, the
loop iteration is the beacon half. -/
theorem startClientIter_beacon (fuel : Nat) (env : Env) (st : ClientState)
    (now : Int) (b : RuuviBluetoothBeacon) (hw : now - st.lastSeen < 58) :
    startClientIter fuel env st now none (some b)
      = handleBeacon fuel env now st b := by
  simp [startClientIter, not_le.mpr hw, handleCnc]

/-- Beacon processing, collecting, address attached, `collection_size ≤ 1`:
publish the beacon individually (the broker verdict is only logged). -/
theorem handleBeacon_single (fuel : Nat) (env : Env) (now : Int)
    (st : ClientState) (b : RuuviBluetoothBeacon) (cc : CollectConfig)
    (q : List RuuviBluetoothBeacon)
    (hv : jwtIsValid st.jwtExp 60 now = true) (hc : st.connected = true)
    (hcc : st.collectconfig = some cc) (hcol : cc.collecting = true)
    (hq : alLookup b.address st.discoveredTags = some q)
    (hsize : cc.collectionSize ≤ 1) :
    handleBeacon (fuel + 1) env now st b
      = .next { st with
          lastSeen := now
          published := st.published
            ++ [⟨eventTopicName cc b.address, .single b, 1,
                env.pubOk (eventTopicName cc b.address) (.single b)⟩] } := by
  obtain ⟨did, conn, jexp, jlife, copt, seen, pause, ccfg, tags, pub, cnc⟩ := st
  subst hcc hc
  simp [handleBeacon, tryAttachDevice, hq, hcol, hsize,
    ClientState.deviceEventTopic, publishMessage, hv]

/-- Beacon processing, collecting, attached, batching with a short queue:
append the beacon to the per-address pending batch. -/
theorem handleBeacon_append (fuel : Nat) (env : Env) (now : Int)
    (st : ClientState) (b : RuuviBluetoothBeacon) (cc : CollectConfig)
    (q : List RuuviBluetoothBeacon)
    (hcc : st.collectconfig = some cc) (hcol : cc.collecting = true)
    (hq : alLookup b.address st.discoveredTags = some q)
    (hN : ¬ (cc.collectionSize ≤ 1))
    (hshort : ¬ (cc.collectionSize - 1 ≤ q.length)) :
    handleBeacon fuel env now st b
      = .next { st with
          lastSeen := now
          discoveredTags := alInsert b.address (q ++ [b])
            st.discoveredTags } := by
  obtain ⟨did, conn, jexp, jlife, copt, seen, pause, ccfg, tags, pub, cnc⟩ := st
  subst hcc
  simp [handleBeacon, tryAttachDevice, hq, hcol, hN, hshort,
    ClientState.deviceEventTopic]

/-- Beacon processing, collecting, attached, batching with a full queue:
publish the batch; on success clear the pending queue, on failure keep it
("Will retry"). -/
theorem handleBeacon_flush (fuel : Nat) (env : Env) (now : Int)
    (st : ClientState) (b : RuuviBluetoothBeacon) (cc : CollectConfig)
    (q : List RuuviBluetoothBeacon)
    (hv : jwtIsValid st.jwtExp 60 now = true) (hc : st.connected = true)
    (hcc : st.collectconfig = some cc) (hcol : cc.collecting = true)
    (hq : alLookup b.address st.discoveredTags = some q)
    (hN : ¬ (cc.collectionSize ≤ 1))
    (hfull : cc.collectionSize - 1 ≤ q.length) :
    handleBeacon (fuel + 1) env now st b
      = (if env.pubOk (eventTopicName cc b.address) (.batch (q ++ [b])) then
          .next { st with
            lastSeen := now
            discoveredTags := alInsert b.address [] st.discoveredTags
            published := st.published
              ++ [⟨eventTopicName cc b.address, .batch (q ++ [b]), 1, true⟩] }
        else
          .next { st with
            lastSeen := now
            published := st.published
              ++ [⟨eventTopicName cc b.address, .batch (q ++ [b]), 1,
                  false⟩] }) := by
  obtain ⟨did, conn, jexp, jlife, copt, seen, pause, ccfg, tags, pub, cnc⟩ := st
  subst hcc hc
  cases hok : env.pubOk (eventTopicName cc b.address)
      (PubPayload.batch (q ++ [b])) <;>
    simp [handleBeacon, tryAttachDevice, hq, hcol, hN, hfull,
      ClientState.deviceEventTopic, publishMessage, hv, hok]

/-- Beacon processing while paused with the 4-minute keep-alive due:
reissue `disable_collecting`, which republishes the (unchanged) paused
config to the state topic and resets the pause timer. -/
theorem handleBeacon_paused (fuel : Nat) (env : Env) (now : Int)
    (st : ClientState) (b : RuuviBluetoothBeacon) (cc : CollectConfig)
    (lp : Int)
    (hv : jwtIsValid st.jwtExp 60 now = true) (hc : st.connected = true)
    (hcc : st.collectconfig = some cc) (hcol : cc.collecting = false)
    (hlp : st.lastPause = some lp) (helap : (4 * 60 : Int) ≤ now - lp)
    (hok : env.pubOk (stateTopic st.device_id) (.state cc) = true) :
    handleBeacon (fuel + 1) env now st b
      = .next { st with
          lastSeen := now
          lastPause := some now
          published := st.published
            ++ [⟨stateTopic st.device_id, .state cc, 1, true⟩] } := by
  obtain ⟨did, conn, jexp, jlife, copt, seen, pause, ccfg, tags, pub, cnc⟩ := st
  obtain ⟨ccol, sub, thr, size, bt⟩ := cc
  simp only at hcol
  subst hcc hc hlp hcol
  simp only at hok
  have helap2 : (240 : Int) ≤ now - lp := by omega
  simp [handleBeacon, disableCollecting, setCollectingState, publishMessage,
    hv, hok, helap2]

/-- Beacon processing while paused before the 4-minute keep-alive: only the
watchdog timestamp moves. -/
theorem handleBeacon_paused_early (fuel : Nat) (env : Env) (now : Int)
    (st : ClientState) (b : RuuviBluetoothBeacon) (cc : CollectConfig)
    (lp : Int)
    (hcc : st.collectconfig = some cc) (hcol : cc.collecting = false)
    (hlp : st.lastPause = some lp) (helap : now - lp < 4 * 60) :
    handleBeacon fuel env now st b = .next { st with lastSeen := now } := by
  obtain ⟨did, conn, jexp, jlife, copt, seen, pause, ccfg, tags, pub, cnc⟩ := st
  subst hcc hlp
  have helap2 : ¬ ((240 : Int) ≤ now - lp) := by omega
  simp [handleBeacon, hcol, helap2]

/-- The PAUSE command: forward it on the C&C channel, then
`disable_collecting` — activating the paused config, publishing it to the
state topic und resetting the pause timer on success; a refused state
publish propagates the error (`?`). -/
theorem handleCnc_pause (fuel : Nat) (env : Env) (now : Int)
    (st : ClientState) (cc : CollectConfig)
    (hv : jwtIsValid st.jwtExp 60 now = true) (hc : st.connected = true)
    (hcc : st.collectconfig = some cc) :
    handleCnc (fuel + 1) env now st
        (some (.command (some ⟨CNCCommand.PAUSE⟩)))
      = (if env.pubOk (stateTopic st.device_id)
            (.state { cc with collecting := false }) then
          .next { st with
            cncOut := st.cncOut
              ++ [IOTCoreCNCMessageKind.COMMAND (some ⟨CNCCommand.PAUSE⟩)]
            collectconfig := some { cc with collecting := false }
            lastPause := some now
            published := st.published
              ++ [⟨stateTopic st.device_id,
                  .state { cc with collecting := false }, 1, true⟩] }
        else
          .fatal { st with
            cncOut := st.cncOut
              ++ [IOTCoreCNCMessageKind.COMMAND (some ⟨CNCCommand.PAUSE⟩)]
            collectconfig := some { cc with collecting := false }
            published := st.published
              ++ [⟨stateTopic st.device_id,
                  .state { cc with collecting := false }, 1, false⟩] }) := by
  obtain ⟨did, conn, jexp, jlife, copt, seen, pause, ccfg, tags, pub, cnc⟩ := st
  subst hcc hc
  cases hok : env.pubOk (stateTopic did)
      (PubPayload.state { cc with collecting := false }) <;>
    simp [handleCnc, disableCollecting, setCollectingState, publishMessage,
      hv, hok]

/-- A broker that refuses state publishes for device `dev` and accepts all
else. -/
def envNoState : Env := ⟨fun t _ => t != stateTopic "dev"⟩

/-- C9 counterexample: a PAUSE command whose state publish the broker
refuses makes `start_client` exit its loop with a propagated error
(`self.disable_collecting()?`), contradicting "the broker client's loop is
never exited because of it". -/
theorem c9_counterexample :
    startClientIter 1 envNoState stClient 0
        (some (.command (some ⟨CNCCommand.PAUSE⟩))) none
      = .fatal { stClient with
          cncOut := stClient.cncOut
            ++ [IOTCoreCNCMessageKind.COMMAND (some ⟨CNCCommand.PAUSE⟩)]
          collectconfig := some { ccBatch with collecting := false }
          published := stClient.published
            ++ [⟨stateTopic "dev", .state { ccBatch with collecting := false },
                1, false⟩] } := by
  have h := handleCnc_pause 0 envNoState 0 stClient ccBatch (by decide) rfl rfl
  rw [show envNoState.pubOk (stateTopic stClient.device_id)
      (PubPayload.state { ccBatch with collecting := false }) = false from by
        simp [envNoState, stClient, stateTopic]] at h
  simp only [Bool.false_eq_true, if_false] at h
  have hw : ¬ ((58 : Int) ≤ 0 - stClient.lastSeen) := by decide
  simp only [startClientIter, hw, if_false]
  rw [h]
  rfl

/-- C9 (amended): every outbound publish passes through the
`publish_message` gate.  (1) With a JWT at least 60 seconds from expiry and
a live session, the QoS 1 message is published on the existing session and
the broker's verdict is surfaced to the caller.  (2) Otherwise the gate
first disconnects, renews the JWT, rebuilds the connect options with the
new token and reconnects (reattaching known tags), and only then publishes.
(3) A failed single-beacon publish drops the beacon and the loop continues;
(4) a failed batch publish keeps the pending queue for retry and the loop
continues; but (5) a failed state publish (here: a PAUSE command) exits the
loop by propagating the error out of `start_client`. -/
theorem c9_publish_discipline (fuel : Nat) (env : Env) (now : Int)
    (st : ClientState) (topic : String) (msg : PubPayload) :
    (jwtIsValid st.jwtExp 60 now = true → st.connected = true →
      publishMessage (fuel + 1) env now st topic msg
        = ({ st with published := st.published
              ++ [⟨topic, msg, 1, env.pubOk topic msg⟩] },
           env.pubOk topic msg))
    ∧ (¬(jwtIsValid st.jwtExp 60 now = true ∧ st.connected = true) →
        publishMessage (fuel + 1) env now st topic msg
          = (let stR := connectClient fuel env now
                { st with
                  connected := false
                  jwtExp := now + st.jwtLifetime
                  connOptsExp := now + st.jwtLifetime }
             ({ stR with published := stR.published
                  ++ [⟨topic, msg, 1, env.pubOk topic msg⟩] },
              env.pubOk topic msg)))
    ∧ (∀ (b : RuuviBluetoothBeacon) (cc : CollectConfig)
          (q : List RuuviBluetoothBeacon),
        now - st.lastSeen < 58 →
        jwtIsValid st.jwtExp 60 now = true → st.connected = true →
        st.collectconfig = some cc → cc.collecting = true →
        alLookup b.address st.discoveredTags = some q →
        env.pubOk (eventTopicName cc b.address) (.single b) = false →
        cc.collectionSize ≤ 1 →
        startClientIter (fuel + 1) env st now none (some b)
          = .next { st with
              lastSeen := now
              published := st.published
                ++ [⟨eventTopicName cc b.address, .single b, 1, false⟩] })
    ∧ (∀ (b : RuuviBluetoothBeacon) (cc : CollectConfig)
          (q : List RuuviBluetoothBeacon),
        now - st.lastSeen < 58 →
        jwtIsValid st.jwtExp 60 now = true → st.connected = true →
        st.collectconfig = some cc → cc.collecting = true →
        alLookup b.address st.discoveredTags = some q →
        env.pubOk (eventTopicName cc b.address) (.batch (q ++ [b])) = false →
        2 ≤ cc.collectionSize → cc.collectionSize - 1 ≤ q.length →
        startClientIter (fuel + 1) env st now none (some b)
          = .next { st with
              lastSeen := now
              published := st.published
                ++ [⟨eventTopicName cc b.address, .batch (q ++ [b]), 1,
                    false⟩] })
    ∧ (∀ cc : CollectConfig,
        now - st.lastSeen < 58 →
        jwtIsValid st.jwtExp 60 now = true → st.connected = true →
        st.collectconfig = some cc →
        env.pubOk (stateTopic st.device_id)
          (.state { cc with collecting := false }) = false →
        startClientIter (fuel + 1) env st now
            (some (.command (some ⟨CNCCommand.PAUSE⟩))) none
          = .fatal { st with
              cncOut := st.cncOut
                ++ [IOTCoreCNCMessageKind.COMMAND (some ⟨CNCCommand.PAUSE⟩)]
              collectconfig := some { cc with collecting := false }
              published := st.published
                ++ [⟨stateTopic st.device_id,
                    .state { cc with collecting := false }, 1, false⟩] }) := by
  refine ⟨?_, ?_, ?_, ?_, ?_⟩
  · intro hv hc
    exact publishMessage_direct fuel env now st topic msg hv hc
  · intro h
    rcases hvb : jwtIsValid st.jwtExp 60 now with _ | _ <;>
      rcases hcb : st.connected with _ | _ <;>
        simp_all [publishMessage]
  · intro b cc q hlt hv hc hcc hcol hq hok hsize
    rw [startClientIter_beacon (fuel + 1) env st now b hlt,
      handleBeacon_single fuel env now st b cc q hv hc hcc hcol hq hsize, hok]
  · intro b cc q hlt hv hc hcc hcol hq hok hN hlen
    have hN2 : ¬ (cc.collectionSize ≤ 1) := by omega
    rw [startClientIter_beacon (fuel + 1) env st now b hlt,
      handleBeacon_flush fuel env now st b cc q hv hc hcc hcol hq hN2 hlen,
      hok]
    simp
  · intro cc hlt hv hc hcc hok
    have hw : ¬ ((58 : Int) ≤ now - st.lastSeen) := not_le.mpr hlt
    simp only [startClientIter, hw, if_false]
    rw [handleCnc_pause fuel env now st cc hv hc hcc, hok]
    simp

/-- A publish-per-beacon collect config. -/
def ccSingle : CollectConfig := ⟨true, none, none, some 1, none⟩

/-- A connected client in publish-per-beacon mode with tag `AA` attached. -/
def stSingle : ClientState :=
  ⟨"dev", true, 4000, 3600, 4000, 0, none, some ccSingle, [("AA", [])], [], []⟩

/-- A broker that refuses event publishes for tag `AA`. -/
def envNoEvents : Env := ⟨fun t _ => t != eventTopicName ccSingle "AA"⟩

/-- C9 witness: a gate-closed publish goes straight through; a refused
single-beacon publish drops the beacon and the loop continues. -/
theorem c9_witness :
    publishMessage 1 envAll 0 stClient "t" .emptyObj
      = ({ stClient with published := stClient.published
            ++ [⟨"t", .emptyObj, 1, envAll.pubOk "t" .emptyObj⟩] },
         envAll.pubOk "t" .emptyObj)
    ∧ startClientIter 1 envNoEvents stSingle 10 none
        (some ⟨zeroPayload, 10, "AA"⟩)
      = .next { stSingle with
          lastSeen := 10
          published := stSingle.published
            ++ [⟨eventTopicName ccSingle "AA",
                .single ⟨zeroPayload, 10, "AA"⟩, 1, false⟩] } :=
  ⟨(c9_publish_discipline 0 envAll 0 stClient "t" .emptyObj).1 (by decide) rfl,
   (c9_publish_discipline 0 envNoEvents 10 stSingle "t" .emptyObj).2.2.1
     ⟨zeroPayload, 10, "AA"⟩ ccSingle [] (by decide) (by decide) rfl rfl rfl
     rfl (by simp [envNoEvents]) (by decide)⟩

/-- A paused collect config. -/
def ccPaused : CollectConfig := ⟨false, none, none, some 1, none⟩

/-- A paused, connected client: paused since t=0, last beacon at t=240. -/
def stPaused : ClientState :=
  ⟨"dev", true, 4000, 3600, 4000, 240, some 0, some ccPaused, [], [], []⟩

/-- C8 counterexample: with `collecting = false` and the pause older than 4
minutes, an iteration in which no beacon arrives publishes nothing and
leaves the pause timer untouched — the keep-alive check lives inside the
beacon-receive branch (iotcore.rs lines 295-348), so the claimed
unconditional re-publish does not happen. -/
theorem c8_counterexample :
    stPaused.collectconfig = some ccPaused
    ∧ ccPaused.collecting = false
    ∧ stPaused.lastPause = some 0
    ∧ (4 * 60 : Int) ≤ 250 - 0
    ∧ startClientIter 1 envAll stPaused 250 none none = .next stPaused := by
  have hw : ¬ ((58 : Int) ≤ 250 - stPaused.lastSeen) := by decide
  exact ⟨rfl, rfl, rfl, by decide, by simp [startClientIter, hw, handleCnc]⟩

/-- C8 (amended): while `collecting = false`, the paused-state keep-alive
runs only upon receiving a beacon: a beacon arriving with the pause at
least 4 minutes old re-publishes the active (paused) CollectConfig to the
state topic and resets the pause timer to now; a beacon arriving earlier
changes nothing but the watchdog timestamp; and an iteration without a
beacon publishes nothing at all, whatever the pause age. -/
theorem c8_pause_keepalive (fuel : Nat) (env : Env) (now : Int)
    (st : ClientState) (cc : CollectConfig) (lp : Int)
    (hcc : st.collectconfig = some cc) (hcol : cc.collecting = false)
    (hlp : st.lastPause = some lp) (hlt : now - st.lastSeen < 58) :
    (∀ b, jwtIsValid st.jwtExp 60 now = true → st.connected = true →
      (4 * 60 : Int) ≤ now - lp →
      env.pubOk (stateTopic st.device_id) (.state cc) = true →
      startClientIter (fuel + 1) env st now none (some b)
        = .next { st with
            lastSeen := now
            lastPause := some now
            published := st.published
              ++ [⟨stateTopic st.device_id, .state cc, 1, true⟩] })
    ∧ (∀ b, now - lp < 4 * 60 →
        startClientIter fuel env st now none (some b)
          = .next { st with lastSeen := now })
    ∧ startClientIter fuel env st now none none = .next st := by
  have hw : ¬ ((58 : Int) ≤ now - st.lastSeen) := not_le.mpr hlt
  refine ⟨?_, ?_, ?_⟩
  · intro b hv hc helap hok
    rw [startClientIter_beacon (fuel + 1) env st now b hlt,
      handleBeacon_paused fuel env now st b cc lp hv hc hcc hcol hlp helap
        hok]
  · intro b helap
    rw [startClientIter_beacon fuel env st now b hlt,
      handleBeacon_paused_early fuel env now st b cc lp hcc hcol hlp helap]
  · simp [startClientIter, hw, handleCnc]

/-- C8 witness: a beacon at t=250 with the pause 250 s old re-publishes the
paused config and moves the pause timer to 250. -/
theorem c8_witness :
    startClientIter 1 envAll stPaused 250 none
        (some ⟨zeroPayload, 250, "AA"⟩)
      = .next { stPaused with
          lastSeen := 250
          lastPause := some 250
          published := stPaused.published
            ++ [⟨stateTopic stPaused.device_id, .state ccPaused, 1, true⟩] } :=
  (c8_pause_keepalive 0 envAll 250 stPaused ccPaused 0 rfl rfl rfl
      (by decide)).1 ⟨zeroPayload, 250, "AA"⟩ (by decide) rfl (by decide) rfl

/-! ### Batching (C6): driving the loop with a stream of beacons -/

theorem alLookup_alInsert {β : Type} (k : String) (v : β)
    (l : List (String × β)) : alLookup k (alInsert k v l) = some v := by
  induction l with
  | nil => simp [alInsert, alLookup]
  | cons hd tl ih =>
    obtain ⟨k', v'⟩ := hd
    by_cases hk : k' = k <;> simp [alInsert, alLookup, hk, ih]

theorem alInsert_alInsert {β : Type} (k : String) (v w : β)
    (l : List (String × β)) :
    alInsert k v (alInsert k w l) = alInsert k v l := by
  induction l with
  | nil => simp [alInsert]
  | cons hd tl ih =>
    obtain ⟨k', v'⟩ := hd
    by_cases hk : k' = k <;> simp [alInsert, hk, ih]

theorem jwtIsValid_of_le (exp now : Int) (h : now ≤ exp - 60) :
    jwtIsValid exp 60 now = true := by
  simp only [jwtIsValid, ite_eq_right_iff]
  omega

/-- Run successive loop iterations, one timed beacon each, with nothing on
the consumer stream; `none` when an iteration does not continue. -/
def iterateBeacons (fuel : Nat) (env : Env) :
    List (Int × RuuviBluetoothBeacon) → ClientState → Option ClientState
  | [], st => some st
  | (now, b) :: rest, st =>
    match startClientIter fuel env st now none (some b) with
    | .next st1 => iterateBeacons fuel env rest st1
    | _ => none

/-- The arrival time of the last beacon of the stream (the stream keeps the
watchdog quiet between consecutive beacons). -/
def lastTime (d : Int) : List (Int × RuuviBluetoothBeacon) → Int
  | [] => d
  | (now, _) :: rest => lastTime now rest

/-- Arrival times stay inside the 58-second watchdog window relative to the
previous beacon (initially to `last_seen`) and inside the JWT's 60-second
validity guard. -/
def timesChained (t0 jexp : Int) :
    List (Int × RuuviBluetoothBeacon) → Prop
  | [] => True
  | (now, _) :: rest =>
    now - t0 < 58 ∧ now ≤ jexp - 60 ∧ timesChained now jexp rest

theorem timesChained_append (jexp : Int)
    (l1 l2 : List (Int × RuuviBluetoothBeacon)) :
    ∀ t0, timesChained t0 jexp (l1 ++ l2) →
      timesChained t0 jexp l1 ∧ timesChained (lastTime t0 l1) jexp l2 := by
  induction l1 with
  | nil => intro t0 h; exact ⟨trivial, h⟩
  | cons hd tl ih =>
    obtain ⟨now, b⟩ := hd
    intro t0 h
    obtain ⟨h1, h2, h3⟩ := h
    obtain ⟨h4, h5⟩ := ih now h3
    exact ⟨⟨h1, h2, h4⟩, h5⟩

theorem iterateBeacons_append (fuel : Nat) (env : Env)
    (l1 l2 : List (Int × RuuviBluetoothBeacon)) :
    ∀ st, iterateBeacons fuel env (l1 ++ l2) st
      = match iterateBeacons fuel env l1 st with
        | some st1 => iterateBeacons fuel env l2 st1
        | none => none := by
  induction l1 with
  | nil => intro st; simp [iterateBeacons]
  | cons hd tl ih =>
    obtain ⟨now, b⟩ := hd
    intro st
    simp only [List.cons_append, iterateBeacons]
    cases startClientIter fuel env st now none (some b) <;> simp [ih]

/-- Feeding one batch worth of beacons for an attached address `A` into the
loop (pending queue `q`, then beacons totalling `collection_size`), with
every publish accepted: the queue fills beacon by beacon and the final
beacon flushes exactly one JSON-array publish of the batch in arrival
order, leaving the pending entry empty. -/
theorem iterateBeacons_fillBatch (fuel : Nat) (env : Env)
    (henv : ∀ t p, env.pubOk t p = true) (A : String) (cc : CollectConfig)
    (N : Nat) (hN : 2 ≤ N) (hsz : cc.collection_size = some N)
    (hcol : cc.collecting = true) :
    ∀ (l : List (Int × RuuviBluetoothBeacon)) (st : ClientState)
      (q : List RuuviBluetoothBeacon),
      st.collectconfig = some cc → st.connected = true →
      alLookup A st.discoveredTags = some q →
      (∀ p ∈ l, p.2.address = A) →
      timesChained st.lastSeen st.jwtExp l →
      q.length + l.length = N → l ≠ [] →
      iterateBeacons (fuel + 1) env l st
        = some { st with
            lastSeen := lastTime st.lastSeen l
            discoveredTags := alInsert A [] st.discoveredTags
            published := st.published
              ++ [⟨eventTopicName cc A, .batch (q ++ l.map Prod.snd), 1,
                  true⟩] } := by
  have hszc : cc.collectionSize = N := by
    simp [CollectConfig.collectionSize, hsz]
  intro l
  induction l with
  | nil => intro st q _ _ _ _ _ _ hne; exact absurd rfl hne
  | cons hd rest ih =>
    obtain ⟨now, b⟩ := hd
    intro st q hcc hconn hq haddr hchain hlen _
    obtain ⟨hw, hjv, hchain2⟩ := hchain
    have hv : jwtIsValid st.jwtExp 60 now = true := jwtIsValid_of_le _ _ hjv
    have hbA : b.address = A := haddr (now, b) (List.mem_cons_self _ _)
    have hqb : alLookup b.address st.discoveredTags = some q := by
      rw [hbA]; exact hq
    have hN2 : ¬ (cc.collectionSize ≤ 1) := by rw [hszc]; omega
    cases rest with
    | nil =>
      have hfull : cc.collectionSize - 1 ≤ q.length := by
        rw [hszc]
        simp only [List.length_cons, List.length_nil] at hlen
        omega
      simp only [iterateBeacons]
      rw [startClientIter_beacon (fuel + 1) env st now b hw,
        handleBeacon_flush fuel env now st b cc q hv hconn hcc hcol hqb hN2
          hfull,
        henv (eventTopicName cc b.address) (PubPayload.batch (q ++ [b]))]
      simp [iterateBeacons, hbA, lastTime]
    | cons hd2 rest2 =>
      have hshort : ¬ (cc.collectionSize - 1 ≤ q.length) := by
        rw [hszc]
        simp only [List.length_cons] at hlen
        omega
      rw [iterateBeacons]
      rw [startClientIter_beacon (fuel + 1) env st now b hw,
        handleBeacon_append (fuel + 1) env now st b cc q hcc hcol hqb hN2
          hshort]
      have hrec := ih
        { st with
          lastSeen := now
          discoveredTags := alInsert b.address (q ++ [b]) st.discoveredTags }
        (q ++ [b]) hcc hconn
        (by rw [hbA]; exact alLookup_alInsert A (q ++ [b]) st.discoveredTags)
        (fun p hp => haddr p (List.mem_cons_of_mem _ hp)) hchain2
        (by
          simp only [List.length_append, List.length_cons, List.length_nil]
            at hlen ⊢
          omega)
        (by simp)
      dsimp only
      rw [hrec]
      simp [hbA, lastTime, alInsert_alInsert, List.append_assoc]

/-- C6: with `collecting = true`, an already-attached address `A` with an
empty pending batch, and `collection_size = N > 1`, assuming every publish
succeeds: after 2N beacons for `A` the client has emitted exactly 2 event
publishes to `A`'s events topic, each a JSON array of exactly N beacons in
arrival order, and `A`'s pending batch is empty. -/
theorem c6_batching (fuel : Nat) (env : Env) (A : String)
    (cc : CollectConfig) (N : Nat) (st : ClientState)
    (l : List (Int × RuuviBluetoothBeacon))
    (henv : ∀ t p, env.pubOk t p = true)
    (hN : 2 ≤ N) (hsz : cc.collection_size = some N)
    (hcol : cc.collecting = true)
    (hcc : st.collectconfig = some cc) (hconn : st.connected = true)
    (hq : alLookup A st.discoveredTags = some [])
    (hpub0 : st.published = [])
    (haddr : ∀ p ∈ l, p.2.address = A)
    (hchain : timesChained st.lastSeen st.jwtExp l)
    (hlen : l.length = 2 * N) :
    ∃ stF, iterateBeacons (fuel + 1) env l st = some stF
      ∧ stF.published
          = [⟨eventTopicName cc A, .batch ((l.take N).map Prod.snd), 1, true⟩,
             ⟨eventTopicName cc A, .batch ((l.drop N).map Prod.snd), 1, true⟩]
      ∧ ((l.take N).map Prod.snd).length = N
      ∧ ((l.drop N).map Prod.snd).length = N
      ∧ alLookup A stF.discoveredTags = some [] := by
  have hlen1 : (l.take N).length = N := by
    rw [List.length_take, hlen]
    omega
  have hlen2 : (l.drop N).length = N := by
    rw [List.length_drop, hlen]
    omega
  have hne1 : l.take N ≠ [] := by
    intro h
    rw [h] at hlen1
    simp at hlen1
    omega
  have hne2 : l.drop N ≠ [] := by
    intro h
    rw [h] at hlen2
    simp at hlen2
    omega
  obtain ⟨hcA, hcB⟩ := timesChained_append st.jwtExp (l.take N) (l.drop N)
    st.lastSeen (by rw [List.take_append_drop]; exact hchain)
  have h1 := iterateBeacons_fillBatch fuel env henv A cc N hN hsz hcol
    (l.take N) st [] hcc hconn hq
    (fun p hp => haddr p
      ((List.take_append_drop N l) ▸ List.mem_append_left _ hp))
    hcA (by simp [hlen1]) hne1
  have h2 := iterateBeacons_fillBatch fuel env henv A cc N hN hsz hcol
    (l.drop N)
    { st with
      lastSeen := lastTime st.lastSeen (l.take N)
      discoveredTags := alInsert A [] st.discoveredTags
      published := st.published
        ++ [⟨eventTopicName cc A,
            .batch ([] ++ (l.take N).map Prod.snd), 1, true⟩] }
    [] hcc hconn (alLookup_alInsert A [] st.discoveredTags)
    (fun p hp => haddr p
      ((List.take_append_drop N l) ▸ List.mem_append_right _ hp))
    hcB (by simp [hlen2]) hne2
  have hstep : iterateBeacons (fuel + 1) env l st
      = iterateBeacons (fuel + 1) env (l.drop N)
          { st with
            lastSeen := lastTime st.lastSeen (l.take N)
            discoveredTags := alInsert A [] st.discoveredTags
            published := st.published
              ++ [⟨eventTopicName cc A,
                  .batch ([] ++ (l.take N).map Prod.snd), 1, true⟩] } := by
    conv_lhs => rw [← List.take_append_drop N l]
    rw [iterateBeacons_append, h1]
  refine ⟨_, hstep.trans h2, ?_, ?_, ?_, ?_⟩
  · simp [hpub0]
  · rw [List.length_map]
    exact hlen1
  · rw [List.length_map]
    exact hlen2
  · exact alLookup_alInsert A [] _

/-- A batch-of-2 collect config. -/
def ccB2 : CollectConfig := ⟨true, none, none, some 2, none⟩

/-- A connected client batching per 2 with tag `AA` attached, empty batch. -/
def stBatch2 : ClientState :=
  ⟨"dev", true, 4000, 3600, 4000, 0, none, some ccB2, [("AA", [])], [], []⟩

/-- A beacon from tag `AA` at time `t`. -/
def bW (t : Int) : RuuviBluetoothBeacon := ⟨zeroPayload, t, "AA"⟩

/-- C6 witness: four beacons with `collection_size = 2` produce exactly the
two 2-element array publishes, in arrival order, and an empty batch. -/
theorem c6_witness :
    ∃ stF, iterateBeacons 1 envAll
        [(1, bW 1), (2, bW 2), (3, bW 3), (4, bW 4)] stBatch2 = some stF
      ∧ stF.published
          = [⟨eventTopicName ccB2 "AA", .batch [bW 1, bW 2], 1, true⟩,
             ⟨eventTopicName ccB2 "AA", .batch [bW 3, bW 4], 1, true⟩]
      ∧ alLookup "AA" stF.discoveredTags = some [] := by
  obtain ⟨stF, h1, h2, h3, h4, h5⟩ :=
    c6_batching 0 envAll "AA" ccB2 2 stBatch2
      [(1, bW 1), (2, bW 2), (3, bW 3), (4, bW 4)]
      (fun _ _ => rfl) (by decide) rfl rfl rfl rfl rfl rfl
      (by intro p hp; fin_cases hp <;> rfl)
      (by norm_num [timesChained, stBatch2])
      (by decide)
  exact ⟨stF, h1, by simpa using h2, h5⟩
